import Mathlib

/-!
Verification of the vauchi desktop command layer (src-tauri/src/commands/devices.rs,
commands/exchange.rs, state.rs).

The desktop shell is glue around an external core library (`vauchi_core`).  We embed
the command functions themselves faithfully: their control flow, error messages,
state-slot updates, base64/hex encoding and QR chunking are modelled concretely,
while every call into the external core library or the storage/relay layer is a
parameter of the command (collected in the `CoreEnv` structure of oracles), so the
theorems quantify over all possible behaviours of the external collaborators.

Rust `u8` bytes are modelled as `Nat` (with a `< 256` hypothesis where a theorem
needs it); Rust `Result<T, E>` is `Except E T`; mutation of the mutex-guarded
`AppState` is explicit state passing: each command maps a state to a
(result, new state) pair.
-/

/-! ### Base64 (standard alphabet, with padding), as used by `base64::STANDARD` -/

def base64Chars : List Char :=
  "ABCDEFGHIJKLMNOPQRSTUVWXYZabcdefghijklmnopqrstuvwxyz0123456789+/".toList

def b64Char (n : Nat) : Char := base64Chars.getD n 'A'

def b64Index (c : Char) : Option Nat := base64Chars.findIdx? (fun d => d == c)

def base64Encode : List Nat → List Char
  | [] => []
  | [a] => [b64Char (a / 4), b64Char (a % 4 * 16), '=', '=']
  | [a, b] => [b64Char (a / 4), b64Char (a % 4 * 16 + b / 16), b64Char (b % 16 * 4), '=']
  | a :: b :: c :: rest =>
    b64Char (a / 4) :: b64Char (a % 4 * 16 + b / 16) ::
      b64Char (b % 16 * 4 + c / 64) :: b64Char (c % 64) :: base64Encode rest

def base64Decode : List Char → Option (List Nat)
  | [] => some []
  | c1 :: c2 :: c3 :: c4 :: rest =>
    match b64Index c1, b64Index c2 with
    | some i1, some i2 =>
      if c3 = '=' then
        if c4 = '=' ∧ rest = [] ∧ i2 % 16 = 0 then some [i1 * 4 + i2 / 16] else none
      else
        match b64Index c3 with
        | some i3 =>
          if c4 = '=' then
            if rest = [] ∧ i3 % 4 = 0 then
              some [i1 * 4 + i2 / 16, i2 % 16 * 16 + i3 / 4]
            else none
          else
            match b64Index c4, base64Decode rest with
            | some i4, some tail =>
              some ((i1 * 4 + i2 / 16) :: (i2 % 16 * 16 + i3 / 4) :: (i3 % 4 * 64 + i4) :: tail)
            | _, _ => none
        | none => none
    | _, _ => none
  | _ => none

def base64EncodeStr (l : List Nat) : String := String.mk (base64Encode l)

def base64DecodeStr (s : String) : Option (List Nat) := base64Decode s.data

/-! ### Hex encoding, as used by the `hex` crate (`hex::encode` is lowercase) -/

def hexDigits : List Char := "0123456789abcdef".toList

def hexChar (n : Nat) : Char := hexDigits.getD n '0'

def hexEncodeChars : List Nat → List Char
  | [] => []
  | b :: rest => hexChar (b / 16 % 16) :: hexChar (b % 16) :: hexEncodeChars rest

def hexEncode (l : List Nat) : String := String.mk (hexEncodeChars l)

def hexVal (c : Char) : Option Nat :=
  match hexDigits.findIdx? (fun d => d == c) with
  | some i => some i
  | none => "0123456789ABCDEF".toList.findIdx? (fun d => d == c)

def hexDecode : List Char → Option (List Nat)
  | [] => some []
  | c1 :: c2 :: rest =>
    match hexVal c1, hexVal c2, hexDecode rest with
    | some h, some lo, some tail => some ((h * 16 + lo) :: tail)
    | _, _, _ => none
  | _ => none

/-! ### Chunking, as used by Rust's `slice::chunks` -/

def chunksOf (n : Nat) (l : List α) : List (List α) :=
  if _h : n = 0 then [] else
    match l with
    | [] => []
    | x :: xs => (x :: xs).take n :: chunksOf n ((x :: xs).drop n)
termination_by l.length
decreasing_by
  simp only [List.length_drop, List.length_cons]
  omega

/-! ### Data model

Opaque data owned by the external core library (responders, initiators, link
requests, device registries) is modelled as a structure with an abstract `tag`
payload: the command layer never inspects it, only threads it through oracles. -/

structure DeviceLinkQR where
  identity_public_key : List Nat
  link_key : List Nat
  expires_at : Nat
deriving DecidableEq

def DeviceLinkQR.is_expired (qr : DeviceLinkQR) (now : Nat) : Bool :=
  decide (qr.expires_at < now)

structure ExchangeQR where
  payload : Nat
  expires_at : Nat
deriving DecidableEq

def ExchangeQR.is_expired (qr : ExchangeQR) (now : Nat) : Bool :=
  decide (qr.expires_at < now)

structure Identity where
  display_name : String
  device_name : String
  device_index : Nat
  device_id : List Nat
deriving DecidableEq

structure DeviceRegistry where
  tag : Nat
deriving DecidableEq

structure DeviceLinkResponder where
  tag : Nat
deriving DecidableEq

structure DeviceLinkInitiatorRestored where
  tag : Nat
deriving DecidableEq

structure DeviceLinkRequest where
  tag : Nat
deriving DecidableEq

structure DeviceLinkResponse where
  master_seed : List Nat
  display_name : String
  device_index : Nat
  registry : DeviceRegistry
deriving DecidableEq

structure LinkConfirmation where
  device_name : String
  confirmation_code : String
  identity_fingerprint : String
deriving DecidableEq

structure Contact where
  id : String
  display_name : String
deriving DecidableEq

structure ContactCard where
  display_name : String
deriving DecidableEq

def ContactCard.new (name : String) : ContactCard := ⟨name⟩

inductive ExchangeState where
  | qrStarted (tag : Nat)
  | awaitingCardExchange (their_public_key : List Nat) (tag : Nat)
  | complete (contact : Contact)
  | other (tag : Nat)
deriving DecidableEq

structure ExchangeSession where
  st : ExchangeState
deriving DecidableEq

/-- PendingJoin is serialized to JSON in `state.pending_device_join` in Rust; the
serde round trip for this plain four-string-field struct is injective and
infallible, so the slot is modelled as holding the structure itself. -/
structure PendingJoin where
  qr_data : String
  device_name : String
  confirmation_code : String
  fingerprint : String
deriving DecidableEq

/-- Storage: the contact table is modelled concretely (an association list keyed by
hex contact id) because claims inspect it; the rest of the encrypted database is an
abstract blob mutated only through oracles. -/
structure Storage where
  contacts : List (String × Contact)
  blob : Nat
deriving DecidableEq

def Storage.load_contact (s : Storage) (id : String) : Option Contact :=
  (s.contacts.find? (fun p => p.1 == id)).map (fun p => p.2)

structure AppState where
  storage : Storage
  identity : Option Identity
  backup_data : Option (List Nat)
  relay_url : String
  pending_device_join : Option PendingJoin
  pending_device_link_qr : Option String
  exchange_session : Option ExchangeSession
  pending_initiator : Option DeviceLinkInitiatorRestored
  pending_link_request : Option DeviceLinkRequest
  pending_sender_token : Option String
deriving DecidableEq

def AppState.has_identity (st : AppState) : Bool :=
  st.identity.isSome || st.backup_data.isSome

inductive CommandError where
  | Storage (msg : String)
  | Identity (msg : String)
  | Validation (msg : String)
  | Device (msg : String)
  | Config (msg : String)
deriving DecidableEq

structure JoinStartResult where
  success : Bool
  request_data : Option String
  target_identity : Option String
  message : String
deriving DecidableEq

structure JoinFinishResult where
  success : Bool
  display_name : Option String
  device_index : Option Nat
  message : String
deriving DecidableEq

structure JoinConfirmation where
  confirmation_code : String
  fingerprint : String
deriving DecidableEq

structure DeviceConfirmation where
  device_name : String
  confirmation_code : String
  fingerprint : String
deriving DecidableEq

structure DeviceLinkResponseData where
  response_data : String
deriving DecidableEq

structure ExchangeResult where
  success : Bool
  contact_name : String
  contact_id : String
  message : String
deriving DecidableEq

structure MultipartQRFrame where
  frame_number : Nat
  total_frames : Nat
  svg : String
deriving DecidableEq

/-- CoreEnv collects every call the command layer makes into the external core
library (`vauchi_core`), the storage engine, and the relay, as oracle functions.
The theorems below quantify over all oracles, so they hold for every behaviour of
the external collaborators. -/
structure CoreEnv where
  parseDeviceLinkQR : String → Except String DeviceLinkQR
  mkResponder : DeviceLinkQR → String → Except String DeviceLinkResponder
  createRequest : DeviceLinkResponder → Except String (List Nat × DeviceLinkResponder)
  confirmationCode : DeviceLinkResponder → Except String String
  responderFingerprint : DeviceLinkResponder → String
  decryptResponse : List Nat → List Nat → Except String DeviceLinkResponse
  identityFromDeviceLink : List Nat → String → Nat → String → Identity
  backupPassword : Except String String
  exportBackup : Identity → String → Except String (List Nat)
  saveIdentity : Storage → List Nat → String → Except String Storage
  saveDeviceRegistry : Storage → DeviceRegistry → Except String Storage
  loadDeviceRegistry : Storage → Except String (Option DeviceRegistry)
  initialDeviceRegistry : Identity → DeviceRegistry
  restoreInitiator : Identity → DeviceRegistry → DeviceLinkQR → DeviceLinkInitiatorRestored
  prepareConfirmation : DeviceLinkInitiatorRestored → List Nat →
    Except String (LinkConfirmation × DeviceLinkRequest)
  setProximityVerified : DeviceLinkInitiatorRestored → DeviceLinkInitiatorRestored
  confirmLink : DeviceLinkInitiatorRestored → DeviceLinkRequest →
    Except String (List Nat × DeviceRegistry)
  revokeDevice : DeviceRegistry → List Nat → Except String DeviceRegistry
  importBackup : List Nat → Except String Identity
  loadOwnCard : Storage → Except String (Option ContactCard)
  parseExchangeQR : String → Except String ExchangeQR
  newQrSession : Identity → ContactCard → ExchangeSession
  applyStartQR : ExchangeSession → Except String ExchangeSession
  applyProcessQR : ExchangeSession → ExchangeQR → Except String ExchangeSession
  applyKeyAgreement : ExchangeSession → Except String ExchangeSession
  applyCompleteExchange : ExchangeSession → ContactCard → Except String ExchangeSession
  saveContact : Storage → Contact → Except String Storage
  relaySend : String → String → List Nat → Except String Unit

/-! ### Device commands (src-tauri/src/commands/devices.rs) -/

/-- Embedding of `join_device` (devices.rs lines 158-227). `now` is the clock the
external `DeviceLinkQR::is_expired` compares the expiry against. -/
def join_device (env : CoreEnv) (now : Nat) (link_data : String) (device_name : String)
    (st : AppState) : Except CommandError JoinStartResult × AppState :=
  if st.identity.isSome then
    (.error (.Device "This device already has an identity. Cannot join another device."), st)
  else
    match env.parseDeviceLinkQR link_data with
    | .error e => (.error (.Device ("Invalid link data: " ++ e)), st)
    | .ok qr =>
      if qr.is_expired now then
        (.error (.Device "This device link has expired. Please generate a new one."), st)
      else
        let target_identity := hexEncode qr.identity_public_key
        let name := if device_name.isEmpty then "Desktop Device" else device_name
        match env.mkResponder qr name with
        | .error e => (.error (.Device ("Failed to create responder: " ++ e)), st)
        | .ok responder =>
          match env.createRequest responder with
          | .error e => (.error (.Device ("Failed to create request: " ++ e)), st)
          | .ok (encrypted_request, responder2) =>
            match env.confirmationCode responder2 with
            | .error e =>
              (.error (.Device ("Failed to compute confirmation code: " ++ e)), st)
            | .ok confirmation_code =>
              let fingerprint := env.responderFingerprint responder2
              let request_b64 := base64EncodeStr encrypted_request
              let pending : PendingJoin :=
                { qr_data := link_data, device_name := name,
                  confirmation_code := confirmation_code, fingerprint := fingerprint }
              (.ok { success := true, request_data := some request_b64,
                     target_identity := some target_identity,
                     message := "Send this request to the existing device and get the response." },
               { st with pending_device_join := some pending })

/-- Embedding of `get_join_confirmation_code` (devices.rs lines 242-259). -/
def get_join_confirmation_code (st : AppState) : Except String JoinConfirmation × AppState :=
  match st.pending_device_join with
  | none => (.error "No pending device join", st)
  | some pending =>
    (.ok { confirmation_code := pending.confirmation_code,
           fingerprint := pending.fingerprint }, st)

/-- Embedding of `finish_join_device` (devices.rs lines 264-338).  Note that
`pending_device_join.take()` runs only after the identity check, so the slot
survives an `AlreadyLinked` early return but is cleared on every later path. -/
def finish_join_device (env : CoreEnv) (response_data : String) (st : AppState) :
    Except CommandError JoinFinishResult × AppState :=
  if st.identity.isSome then
    (.error (.Device "This device already has an identity."), st)
  else
    match st.pending_device_join with
    | none => (.error (.Device "No pending device join. Call join_device first."), st)
    | some pending =>
      let st := { st with pending_device_join := none }
      match env.parseDeviceLinkQR pending.qr_data with
      | .error e => (.error (.Device ("Invalid QR data: " ++ e)), st)
      | .ok qr =>
        match base64DecodeStr response_data with
        | none => (.error (.Device "Invalid response data (not valid base64)"), st)
        | some encrypted_response =>
          match env.decryptResponse encrypted_response qr.link_key with
          | .error e => (.error (.Device ("Failed to decrypt response: " ++ e)), st)
          | .ok response =>
            let identity := env.identityFromDeviceLink response.master_seed
              response.display_name response.device_index pending.device_name
            let display_name := identity.display_name
            let device_index := identity.device_index
            match env.backupPassword with
            | .error e =>
              (.error (.Device ("Failed to get backup password: " ++ e)), st)
            | .ok password =>
              match env.exportBackup identity password with
              | .error e => (.error (.Device ("Failed to export backup: " ++ e)), st)
              | .ok backup =>
                match env.saveIdentity st.storage backup display_name with
                | .error e => (.error (.Storage ("Failed to save identity: " ++ e)), st)
                | .ok storage2 =>
                  let st := { st with storage := storage2 }
                  match env.saveDeviceRegistry st.storage response.registry with
                  | .error e =>
                    (.error (.Storage ("Failed to save device registry: " ++ e)), st)
                  | .ok storage3 =>
                    (.ok { success := true, display_name := some display_name,
                           device_index := some device_index,
                           message := "Device successfully joined! Run sync to fetch contacts." },
                     { st with storage := storage3, identity := some identity })

/-- Embedding of `prepare_device_confirmation` (devices.rs lines 427-482). -/
def prepare_device_confirmation (env : CoreEnv) (now : Nat) (request_data : String)
    (st : AppState) : Except String DeviceConfirmation × AppState :=
  match st.identity with
  | none => (.error "No identity found. Cannot prepare device confirmation.", st)
  | some identity =>
    match st.pending_device_link_qr with
    | none => (.error "No pending device link. Generate a link QR first.", st)
    | some pending_qr_data =>
      match env.parseDeviceLinkQR pending_qr_data with
      | .error e => (.error ("Invalid saved QR data: " ++ e), st)
      | .ok saved_qr =>
        if saved_qr.is_expired now then
          (.error "Device link QR has expired. Generate a new one.", st)
        else
          match env.loadDeviceRegistry st.storage with
          | .error e => (.error ("Failed to load registry: " ++ e), st)
          | .ok maybe_registry =>
            let registry := maybe_registry.getD (env.initialDeviceRegistry identity)
            let initiator := env.restoreInitiator identity registry saved_qr
            match base64DecodeStr request_data with
            | none => (.error "Invalid request data (not valid base64)", st)
            | some encrypted_request =>
              match env.prepareConfirmation initiator encrypted_request with
              | .error e => (.error ("Failed to prepare confirmation: " ++ e), st)
              | .ok (confirmation, request) =>
                (.ok { device_name := confirmation.device_name,
                       confirmation_code := confirmation.confirmation_code,
                       fingerprint := confirmation.identity_fingerprint },
                 { st with pending_initiator := some initiator,
                           pending_link_request := some request })

/-- Embedding of `confirm_device_link_approved` (devices.rs lines 489-524).  The
two `take()` calls run in order: if the initiator is present but the request is
missing, the initiator slot has already been emptied when the error returns. -/
def confirm_device_link_approved (env : CoreEnv) (st : AppState) :
    Except String DeviceLinkResponseData × AppState :=
  match st.pending_initiator with
  | none =>
    (.error "No pending device link initiator. Call prepare_device_confirmation first.", st)
  | some initiator =>
    let st := { st with pending_initiator := none }
    match st.pending_link_request with
    | none => (.error "No pending device link request.", st)
    | some request =>
      let st := { st with pending_link_request := none }
      let initiator := env.setProximityVerified initiator
      match env.confirmLink initiator request with
      | .error e => (.error ("Failed to confirm link: " ++ e), st)
      | .ok (encrypted_response, updated_registry) =>
        match env.saveDeviceRegistry st.storage updated_registry with
        | .error e => (.error ("Failed to save registry: " ++ e), st)
        | .ok storage2 =>
          (.ok { response_data := base64EncodeStr encrypted_response },
           { st with storage := storage2, pending_device_link_qr := none })

/-- Embedding of `deny_device_link` (devices.rs lines 529-536). -/
def deny_device_link (st : AppState) : Except String Unit × AppState :=
  (.ok (), { st with pending_initiator := none, pending_link_request := none,
                     pending_device_link_qr := none })

/-- Embedding of `revoke_device` (devices.rs lines 628-681). -/
def revoke_device (env : CoreEnv) (device_id : String) (st : AppState) :
    Except CommandError Bool × AppState :=
  match st.identity with
  | none => (.error (.Identity "No identity found"), st)
  | some identity =>
    let current_device_id := hexEncode identity.device_id
    if device_id = current_device_id then
      (.error (.Device
        "Cannot revoke the current device. Use a different device to revoke this one."), st)
    else
      match env.loadDeviceRegistry st.storage with
      | .error e => (.error (.Storage ("Failed to load device registry: " ++ e)), st)
      | .ok none => (.error (.Device "No device registry found"), st)
      | .ok (some registry) =>
        match hexDecode device_id.data with
        | none => (.error (.Validation "Invalid hex"), st)
        | some device_id_bytes =>
          if device_id_bytes.length ≠ 32 then
            (.error (.Validation "Device ID must be 32 bytes"), st)
          else
            match env.revokeDevice registry device_id_bytes with
            | .error e => (.error (.Device ("Failed to revoke device: " ++ e)), st)
            | .ok registry2 =>
              match env.saveDeviceRegistry st.storage registry2 with
              | .error e =>
                (.error (.Storage ("Failed to save device registry: " ++ e)), st)
              | .ok storage2 => (.ok true, { st with storage := storage2 })

/-- Embedding of `relay_send_response` (devices.rs lines 722-741): the pending
sender token is taken from state before the base64 payload is validated or the
relay is contacted. -/
def relay_send_response (env : CoreEnv) (response_data : String) (st : AppState) :
    Except String Unit × AppState :=
  match st.pending_sender_token with
  | none => (.error "No pending sender token. Call relay_listen_for_request first.", st)
  | some sender_token =>
    let st := { st with pending_sender_token := none }
    match base64DecodeStr response_data with
    | none => (.error "Invalid response data (not valid base64)", st)
    | some payload => (env.relaySend st.relay_url sender_token payload, st)

/-! ### Multipart QR (devices.rs lines 793-822)

The Rust command receives a `String` and works on its UTF-8 bytes; the model takes
the byte list directly.  Rendering one header string to an SVG (the `qrcode` crate
via `generate_qr_svg`) is the oracle `qrSvg`. -/

def multipartFrameHeader (i total : Nat) (chunk : List Nat) : String :=
  "WBMP|" ++ toString i ++ "|" ++ toString total ++ "|" ++ base64EncodeStr chunk

def multipartLoop (qrSvg : String → Except String String) (total : Nat) :
    Nat → List (List Nat) → Except String (List MultipartQRFrame)
  | _, [] => .ok []
  | i, chunk :: rest =>
    match qrSvg (multipartFrameHeader (i + 1) total chunk) with
    | .error e => .error e
    | .ok svg =>
      match multipartLoop qrSvg total (i + 1) rest with
      | .error e => .error e
      | .ok frames =>
        .ok ({ frame_number := i + 1, total_frames := total, svg := svg } :: frames)

def generate_multipart_qr (qrSvg : String → Except String String) (data : List Nat) :
    Except String (List MultipartQRFrame) :=
  let chunk_size := 1500
  if data.isEmpty then
    match qrSvg (multipartFrameHeader 1 1 []) with
    | .error e => .error e
    | .ok svg => .ok [{ frame_number := 1, total_frames := 1, svg := svg }]
  else
    let chunks := chunksOf chunk_size data
    multipartLoop qrSvg chunks.length 0 chunks

/-- Chunk list a multipart sequence is built from: the empty input produces one
empty chunk, otherwise the 1500-byte chunks of the input. -/
def multipartChunks (data : List Nat) : List (List Nat) :=
  if data.isEmpty then [[]] else chunksOf 1500 data

/-! ### Exchange commands (src-tauri/src/commands/exchange.rs) -/

/-- Embedding of `AppState::create_owned_identity` (state.rs lines 312-327). -/
def create_owned_identity (env : CoreEnv) (st : AppState) : Except String Identity :=
  match st.backup_data with
  | some backup => env.importBackup backup
  | none => .error "No identity backup data available"

/-- Embedding of `process_scanned_qr` (exchange.rs lines 97-138). -/
def process_scanned_qr (env : CoreEnv) (now : Nat) (data : String) (st : AppState) :
    Except String Unit × AppState :=
  if !st.has_identity then
    (.error "No identity found. Please create an identity first.", st)
  else
    match create_owned_identity env st with
    | .error e => (.error ("Failed to load identity: " ++ e), st)
    | .ok identity =>
      let our_card :=
        match env.loadOwnCard st.storage with
        | .ok (some card) => card
        | _ => ContactCard.new identity.display_name
      match env.parseExchangeQR data with
      | .error e => (.error ("Invalid QR code: " ++ e), st)
      | .ok qr =>
        if qr.is_expired now then
          (.error "This QR code has expired. Please ask them to generate a new one.", st)
        else
          let session := env.newQrSession identity our_card
          match env.applyStartQR session with
          | .error e => (.error ("Failed to start QR session: " ++ e), st)
          | .ok session2 =>
            match env.applyProcessQR session2 qr with
            | .error e => (.error ("Failed to process QR: " ++ e), st)
            | .ok session3 => (.ok (), { st with exchange_session := some session3 })

/-- Embedding of `complete_exchange` (exchange.rs lines 163-231).  The session is
taken out of state up front, so it is gone on every return path. -/
def complete_exchange (env : CoreEnv) (st : AppState) :
    Except String ExchangeResult × AppState :=
  match st.exchange_session with
  | none => (.error "No exchange session active", st)
  | some session =>
    let st := { st with exchange_session := none }
    match env.applyKeyAgreement session with
    | .error e => (.error ("Key agreement failed: " ++ e), st)
    | .ok session2 =>
      match session2.st with
      | .awaitingCardExchange their_public_key _ =>
        let contact_id := hexEncode their_public_key
        if (st.storage.load_contact contact_id).isSome then
          (.ok { success := false, contact_name := "Unknown", contact_id := contact_id,
                 message := "You already have this contact." }, st)
        else
          let placeholder_name := "Contact " ++ contact_id.take 8
          let card := ContactCard.new placeholder_name
          match env.applyCompleteExchange session2 card with
          | .error e => (.error ("Card exchange failed: " ++ e), st)
          | .ok session3 =>
            match session3.st with
            | .complete contact =>
              match env.saveContact st.storage contact with
              | .error e => (.error ("Failed to save contact: " ++ e), st)
              | .ok storage2 =>
                (.ok { success := true, contact_name := contact.display_name,
                       contact_id := contact_id,
                       message := "Contact added! Run sync to receive their contact card." },
                 { st with storage := storage2 })
            | _ => (.error "Session not in Complete state", st)
      | _ => (.error "Session not in expected state after key agreement", st)

/-! ### Concrete fixtures used by witnesses and counterexamples -/

def identityTriv : Identity :=
  { display_name := "Alice", device_name := "Main", device_index := 0,
    device_id := List.replicate 32 0 }

def qrTriv : DeviceLinkQR :=
  { identity_public_key := List.replicate 32 1, link_key := List.replicate 32 2,
    expires_at := 100 }

def envTriv : CoreEnv :=
  { parseDeviceLinkQR := fun _ => .ok qrTriv
    mkResponder := fun _ _ => .ok ⟨0⟩
    createRequest := fun r => .ok ([1, 2, 3], r)
    confirmationCode := fun _ => .ok "123-456"
    responderFingerprint := fun _ => "AB CD"
    decryptResponse := fun _ _ =>
      .ok { master_seed := [], display_name := "Alice", device_index := 1, registry := ⟨0⟩ }
    identityFromDeviceLink := fun _ n i d =>
      { display_name := n, device_name := d, device_index := i,
        device_id := List.replicate 32 3 }
    backupPassword := .ok "pw"
    exportBackup := fun _ _ => .ok [0]
    saveIdentity := fun s _ _ => .ok s
    saveDeviceRegistry := fun s _ => .ok s
    loadDeviceRegistry := fun _ => .ok none
    initialDeviceRegistry := fun _ => ⟨0⟩
    restoreInitiator := fun _ _ _ => ⟨0⟩
    prepareConfirmation := fun _ _ =>
      .ok ({ device_name := "D", confirmation_code := "111-111",
             identity_fingerprint := "FP" }, ⟨0⟩)
    setProximityVerified := id
    confirmLink := fun _ _ => .ok ([9], ⟨1⟩)
    revokeDevice := fun r _ => .ok r
    importBackup := fun _ => .ok identityTriv
    loadOwnCard := fun _ => .ok none
    parseExchangeQR := fun _ => .ok { payload := 0, expires_at := 100 }
    newQrSession := fun _ _ => ⟨.qrStarted 0⟩
    applyStartQR := fun s => .ok s
    applyProcessQR := fun s _ => .ok s
    applyKeyAgreement := fun s => .ok s
    applyCompleteExchange := fun s _ => .ok s
    saveContact := fun s _ => .ok s
    relaySend := fun _ _ _ => .ok () }

def storageTriv : Storage := { contacts := [], blob := 0 }

def stFresh : AppState :=
  { storage := storageTriv, identity := none, backup_data := none,
    relay_url := "wss://relay.vauchi.app", pending_device_join := none,
    pending_device_link_qr := none, exchange_session := none,
    pending_initiator := none, pending_link_request := none,
    pending_sender_token := none }

def pendingTriv : PendingJoin :=
  { qr_data := "WBDL-test", device_name := "My Desktop",
    confirmation_code := "123-456", fingerprint := "AB CD" }

def stWithId : AppState := { stFresh with identity := some identityTriv }

def stIdPending : AppState :=
  { stFresh with identity := some identityTriv, pending_device_join := some pendingTriv }

def stPrepare : AppState :=
  { stFresh with identity := some identityTriv, pending_device_link_qr := some "qr-data" }

def stBackup : AppState := { stFresh with backup_data := some [1] }

def stInitOnly : AppState := { stFresh with pending_initiator := some ⟨0⟩ }

def stJoinPending : AppState := { stFresh with pending_device_join := some pendingTriv }

def contactTriv : Contact :=
  { id := hexEncode (List.replicate 32 5), display_name := "Bob" }

def sessionAwaiting : ExchangeSession := ⟨.awaitingCardExchange (List.replicate 32 5) 0⟩

def stExchange : AppState :=
  { stFresh with exchange_session := some sessionAwaiting,
                 storage := { contacts := [(hexEncode (List.replicate 32 5), contactTriv)],
                              blob := 0 } }

def stToken : AppState := { stFresh with pending_sender_token := some "tok" }

/-! ### Lemmas about base64 -/

theorem b64Index_b64Char : ∀ n, n < 64 → b64Index (b64Char n) = some n := by decide

theorem b64Char_ne_pad : ∀ n, n < 64 → b64Char n ≠ '=' := by decide

theorem base64Decode_base64Encode (l : List Nat) (h : ∀ b ∈ l, b < 256) :
    base64Decode (base64Encode l) = some l := by
  match l with
  | [] => rfl
  | [a] =>
    have ha : a < 256 := h a (by simp)
    have h1 := b64Index_b64Char (a / 4) (by omega)
    have h2 := b64Index_b64Char (a % 4 * 16) (by omega)
    have e0 : a % 4 * 16 % 16 = 0 := by omega
    have e1 : a / 4 * 4 + a % 4 * 16 / 16 = a := by omega
    simp [base64Encode, base64Decode, h1, h2, e0, e1]
    omega
  | [a, b] =>
    have ha : a < 256 := h a (by simp)
    have hb : b < 256 := h b (by simp)
    have h1 := b64Index_b64Char (a / 4) (by omega)
    have h2 := b64Index_b64Char (a % 4 * 16 + b / 16) (by omega)
    have h3 := b64Index_b64Char (b % 16 * 4) (by omega)
    have hne := b64Char_ne_pad (b % 16 * 4) (by omega)
    have e0 : b % 16 * 4 % 4 = 0 := by omega
    have e1 : a / 4 * 4 + (a % 4 * 16 + b / 16) / 16 = a := by omega
    have e2 : (a % 4 * 16 + b / 16) % 16 * 16 + b % 16 * 4 / 4 = b := by omega
    simp [base64Encode, base64Decode, h1, h2, h3, hne, e0, e1, e2]
    omega
  | a :: b :: c :: d :: rest =>
    have ha : a < 256 := h a (by simp)
    have hb : b < 256 := h b (by simp)
    have hc : c < 256 := h c (by simp)
    have ih := base64Decode_base64Encode (d :: rest)
      (fun x hx => h x (by simp at hx ⊢; tauto))
    have h1 := b64Index_b64Char (a / 4) (by omega)
    have h2 := b64Index_b64Char (a % 4 * 16 + b / 16) (by omega)
    have h3 := b64Index_b64Char (b % 16 * 4 + c / 64) (by omega)
    have h4 := b64Index_b64Char (c % 64) (by omega)
    have hne3 := b64Char_ne_pad (b % 16 * 4 + c / 64) (by omega)
    have hne4 := b64Char_ne_pad (c % 64) (by omega)
    have e1 : a / 4 * 4 + (a % 4 * 16 + b / 16) / 16 = a := by omega
    have e2 : (a % 4 * 16 + b / 16) % 16 * 16 + (b % 16 * 4 + c / 64) / 4 = b := by omega
    have e3 : (b % 16 * 4 + c / 64) % 4 * 64 + c % 64 = c := by omega
    simp [base64Encode, base64Decode, h1, h2, h3, h4, hne3, hne4, ih, e1, e2, e3]
  | [a, b, c] =>
    have ha : a < 256 := h a (by simp)
    have hb : b < 256 := h b (by simp)
    have hc : c < 256 := h c (by simp)
    have h1 := b64Index_b64Char (a / 4) (by omega)
    have h2 := b64Index_b64Char (a % 4 * 16 + b / 16) (by omega)
    have h3 := b64Index_b64Char (b % 16 * 4 + c / 64) (by omega)
    have h4 := b64Index_b64Char (c % 64) (by omega)
    have hne3 := b64Char_ne_pad (b % 16 * 4 + c / 64) (by omega)
    have hne4 := b64Char_ne_pad (c % 64) (by omega)
    have e1 : a / 4 * 4 + (a % 4 * 16 + b / 16) / 16 = a := by omega
    have e2 : (a % 4 * 16 + b / 16) % 16 * 16 + (b % 16 * 4 + c / 64) / 4 = b := by omega
    have e3 : (b % 16 * 4 + c / 64) % 4 * 64 + c % 64 = c := by omega
    simp [base64Encode, base64Decode, h1, h2, h3, h4, hne3, hne4, e1, e2, e3]

theorem base64DecodeStr_base64EncodeStr (l : List Nat) (h : ∀ b ∈ l, b < 256) :
    base64DecodeStr (base64EncodeStr l) = some l :=
  base64Decode_base64Encode l h

theorem base64Encode_ne_nil (l : List Nat) (h : l ≠ []) : base64Encode l ≠ [] := by
  match l with
  | [] => exact absurd rfl h
  | [a] => simp [base64Encode]
  | [a, b] => simp [base64Encode]
  | a :: b :: c :: rest => simp [base64Encode]

theorem base64EncodeStr_ne_empty (l : List Nat) (h : l ≠ []) : base64EncodeStr l ≠ "" := by
  intro he
  have : base64Encode l = [] := congrArg String.data he
  exact base64Encode_ne_nil l h this

/-! ### Lemmas about chunking -/

theorem chunksOf_nil (n : Nat) : chunksOf n ([] : List α) = [] := by
  rw [chunksOf]
  split
  · rfl
  · rfl

theorem chunksOf_cons (n : Nat) (hn : ¬ n = 0) (x : α) (xs : List α) :
    chunksOf n (x :: xs) = (x :: xs).take n :: chunksOf n ((x :: xs).drop n) := by
  rw [chunksOf]
  rw [dif_neg hn]

theorem chunksOf_flatten (n : Nat) (hn : 0 < n) (l : List α) :
    (chunksOf n l).flatten = l := by
  have hn0 : ¬ n = 0 := by omega
  match l with
  | [] => rw [chunksOf_nil]; rfl
  | x :: xs =>
    rw [chunksOf_cons n hn0]
    have ih := chunksOf_flatten n hn ((x :: xs).drop n)
    rw [List.flatten_cons, ih]
    exact List.take_append_drop n (x :: xs)
termination_by l.length
decreasing_by
  simp only [List.length_drop, List.length_cons]
  omega

theorem chunksOf_zero (l : List α) : chunksOf 0 l = [] := by
  rw [chunksOf.eq_def]
  rfl

theorem chunksOf_length_le (n : Nat) (l : List α) :
    ∀ c ∈ chunksOf n l, c.length ≤ n := by
  by_cases hn0 : n = 0
  · intro c hc
    rw [hn0, chunksOf_zero] at hc
    cases hc
  · match l with
    | [] =>
      intro c hc
      rw [chunksOf_nil] at hc
      cases hc
    | x :: xs =>
      intro c hc
      rw [chunksOf_cons n hn0] at hc
      rcases List.mem_cons.mp hc with h | h
      · rw [h]
        exact List.length_take_le n (x :: xs)
      · exact chunksOf_length_le n ((x :: xs).drop n) c h
termination_by l.length
decreasing_by
  simp only [List.length_drop, List.length_cons]
  omega

theorem chunksOf_length (n : Nat) (hn : 0 < n) (l : List α) (hl : l ≠ []) :
    (chunksOf n l).length = (l.length - 1) / n + 1 := by
  have hn0 : ¬ n = 0 := by omega
  match l with
  | [] => exact absurd rfl hl
  | x :: xs =>
    rw [chunksOf_cons n hn0]
    by_cases hle : xs.length + 1 ≤ n
    · have hdrop : (x :: xs).drop n = [] := by
        have hld := List.length_drop n (x :: xs)
        have hlc := List.length_cons x xs
        have h0 : ((x :: xs).drop n).length = 0 := by omega
        exact List.length_eq_zero.mp h0
      rw [hdrop, chunksOf_nil]
      simp only [List.length_cons, List.length_singleton]
      have hlt : xs.length + 1 - 1 < n := by omega
      rw [Nat.div_eq_of_lt hlt]
      rfl
    · have hdrop_ne : (x :: xs).drop n ≠ [] := by
        intro h0
        have hld := List.length_drop n (x :: xs)
        have hlc := List.length_cons x xs
        rw [h0] at hld
        simp only [List.length_nil] at hld
        omega
      have ih := chunksOf_length n hn ((x :: xs).drop n) hdrop_ne
      simp only [List.length_cons, List.length_drop, ih]
      have hnm : n ≤ xs.length := by omega
      have hdiv := Nat.div_eq_sub_div hn hnm
      have e1 : xs.length + 1 - n - 1 = xs.length - n := by omega
      have e2 : xs.length + 1 - 1 = xs.length := by omega
      rw [e1, e2, hdiv]
termination_by l.length
decreasing_by
  simp only [List.length_drop, List.length_cons]
  omega

/-! ### Lemmas about hex and strings -/

theorem hexEncodeChars_length (l : List Nat) :
    (hexEncodeChars l).length = 2 * l.length := by
  induction l with
  | nil => rfl
  | cons b rest ih =>
    simp only [hexEncodeChars, List.length_cons, ih]
    omega

theorem hexEncode_length (l : List Nat) : (hexEncode l).length = 2 * l.length :=
  hexEncodeChars_length l

theorem string_data_append (p e : String) : (p ++ e).data = p.data ++ e.data := by
  rcases p with ⟨pd⟩
  rcases e with ⟨ed⟩
  rfl

theorem take_length_append (l1 l2 : List α) : (l1 ++ l2).take l1.length = l1 := by
  induction l1 with
  | nil => rfl
  | cons x xs ih => simp [ih]

theorem append_ne_of_take_ne (p q : String)
    (h : q.data.take p.data.length ≠ p.data) (e : String) : p ++ e ≠ q := by
  intro heq
  apply h
  have h2 : p.data ++ e.data = q.data := by
    have h3 := congrArg String.data heq
    rw [string_data_append] at h3
    exact h3
  rw [← h2]
  exact take_length_append p.data e.data

/-! ### Multipart QR frame loop -/

theorem multipartLoop_ok (qrSvg : String → Except String String)
    (hsvg : ∀ s, ∃ t, qrSvg s = .ok t) (total : Nat) (chunks : List (List Nat)) :
    ∀ i : Nat, ∃ frames, multipartLoop qrSvg total i chunks = .ok frames ∧
      frames.length = chunks.length ∧
      ∀ j (hj : j < frames.length),
        (frames.get ⟨j, hj⟩).frame_number = i + j + 1 ∧
        (frames.get ⟨j, hj⟩).total_frames = total ∧
        qrSvg (multipartFrameHeader (i + j + 1) total (chunks.getD j [])) =
          .ok (frames.get ⟨j, hj⟩).svg := by
  induction chunks with
  | nil =>
    intro i
    refine ⟨[], rfl, rfl, ?_⟩
    intro j hj
    exact absurd hj (by simp)
  | cons c rest ih =>
    intro i
    obtain ⟨svg, hsvg1⟩ := hsvg (multipartFrameHeader (i + 1) total c)
    obtain ⟨frames, hfr, hlen, hprops⟩ := ih (i + 1)
    refine ⟨⟨i + 1, total, svg⟩ :: frames, ?_, ?_, ?_⟩
    · simp only [multipartLoop, hsvg1, hfr]
    · simp only [List.length_cons, hlen]
    · intro j hj
      match j with
      | 0 => exact ⟨rfl, rfl, hsvg1⟩
      | j' + 1 =>
        have hj' : j' < frames.length := Nat.lt_of_succ_lt_succ hj
        obtain ⟨p1, p2, p3⟩ := hprops j' hj'
        refine ⟨?_, ?_, ?_⟩
        · have e : i + (j' + 1) + 1 = i + 1 + j' + 1 := by omega
          rw [e]
          exact p1
        · exact p2
        · have e : i + (j' + 1) + 1 = i + 1 + j' + 1 := by omega
          rw [e]
          exact p3

/-- C2: for every input byte string of length n, `generate_multipart_qr` produces
exactly max 1 (ceil (n / 1500)) frames (one frame for empty input, whose chunk
decodes to the empty string); frame j (0-based) carries `frame_number` j + 1 and
`total_frames` equal to the frame count, and its SVG is rendered from the header
string `multipartFrameHeader (j+1) total chunk`, which is by definition
"WBMP|" ++ (j+1) ++ "|" ++ total ++ "|" ++ base64 of the chunk; every chunk is at
most 1500 raw bytes, base64-decoding each encoded chunk gives the chunk back, and
the chunks concatenate to the original input exactly. -/
theorem generate_multipart_qr_correct
    (qrSvg : String → Except String String) (data : List Nat)
    (hbytes : ∀ b ∈ data, b < 256)
    (hsvg : ∀ s, ∃ t, qrSvg s = .ok t) :
    ∃ frames, generate_multipart_qr qrSvg data = .ok frames ∧
      frames.length = (multipartChunks data).length ∧
      (multipartChunks data).length = max 1 ((data.length + 1499) / 1500) ∧
      (multipartChunks data).flatten = data ∧
      (∀ c ∈ multipartChunks data, c.length ≤ 1500) ∧
      (∀ c ∈ multipartChunks data, base64DecodeStr (base64EncodeStr c) = some c) ∧
      (∀ j (hj : j < frames.length),
        (frames.get ⟨j, hj⟩).frame_number = j + 1 ∧
        (frames.get ⟨j, hj⟩).total_frames = frames.length ∧
        qrSvg (multipartFrameHeader (j + 1) ((multipartChunks data).length)
          ((multipartChunks data).getD j [])) = .ok (frames.get ⟨j, hj⟩).svg) := by
  by_cases hemp : data.isEmpty
  · have hdata : data = [] := by
      cases data
      · rfl
      · simp [List.isEmpty] at hemp
    subst hdata
    obtain ⟨svg, hsvg1⟩ := hsvg (multipartFrameHeader 1 1 [])
    refine ⟨[⟨1, 1, svg⟩], ?_, rfl, by decide, rfl, by decide, ?_, ?_⟩
    · simp only [generate_multipart_qr, List.isEmpty_nil, if_true, hsvg1]
    · intro c hc
      have : c = [] := by
        simp only [multipartChunks, List.isEmpty_nil, if_true, List.mem_singleton] at hc
        exact hc
      rw [this]
      rfl
    · intro j hj
      match j with
      | 0 => exact ⟨rfl, rfl, hsvg1⟩
  · have hdata : data ≠ [] := by
      intro h
      rw [h] at hemp
      exact hemp rfl
    have hmc : multipartChunks data = chunksOf 1500 data := by
      simp only [multipartChunks]
      rw [if_neg (by simpa using hemp)]
    obtain ⟨frames, hfr, hlen, hprops⟩ :=
      multipartLoop_ok qrSvg hsvg (chunksOf 1500 data).length (chunksOf 1500 data) 0
    have hflat : (chunksOf 1500 data).flatten = data := chunksOf_flatten 1500 (by omega) data
    have hcount : (chunksOf 1500 data).length = (data.length - 1) / 1500 + 1 :=
      chunksOf_length 1500 (by omega) data hdata
    have hpos : 0 < data.length := List.length_pos.mpr hdata
    refine ⟨frames, ?_, ?_, ?_, ?_, ?_, ?_, ?_⟩
    · simp only [generate_multipart_qr]
      rw [if_neg hemp]
      exact hfr
    · rw [hmc]
      exact hlen
    · rw [hmc, hcount]
      have e1 : data.length + 1499 = (data.length - 1) + 1500 := by omega
      rw [e1, Nat.add_div_right _ (by omega)]
      have e2 : 1 ≤ (data.length - 1) / 1500 + 1 := by omega
      exact (Nat.max_eq_right e2).symm
    · rw [hmc]
      exact hflat
    · rw [hmc]
      exact chunksOf_length_le 1500 data
    · rw [hmc]
      intro c hc
      refine base64DecodeStr_base64EncodeStr c ?_
      intro b hb
      refine hbytes b ?_
      rw [← hflat]
      exact List.mem_flatten.mpr ⟨c, hc, hb⟩
    · rw [hmc]
      intro j hj
      obtain ⟨p1, p2, p3⟩ := hprops j hj
      refine ⟨?_, ?_, ?_⟩
      · rw [p1]
        omega
      · rw [p2, hlen]
      · have e : j + 1 = 0 + j + 1 := by omega
        rw [e]
        exact p3

/-! ### C1: single-identity invariant -/

/-- C1: in every state that already holds an Identity, both join_device and
finish_join_device fail with the already-has-an-identity error; in a state with
no identity, neither operation can return that error, whatever the external
library and storage do. -/
theorem single_identity_invariant :
    (∀ (env : CoreEnv) (now : Nat) (ld dn : String) (st : AppState) (idn : Identity),
      st.identity = some idn →
      (join_device env now ld dn st).1 =
        .error (.Device "This device already has an identity. Cannot join another device.")) ∧
    (∀ (env : CoreEnv) (rd : String) (st : AppState) (idn : Identity),
      st.identity = some idn →
      (finish_join_device env rd st).1 =
        .error (.Device "This device already has an identity.")) ∧
    (∀ (env : CoreEnv) (now : Nat) (ld dn : String) (st : AppState),
      st.identity = none →
      (join_device env now ld dn st).1 ≠
        .error (.Device "This device already has an identity. Cannot join another device.")) ∧
    (∀ (env : CoreEnv) (rd : String) (st : AppState),
      st.identity = none →
      (finish_join_device env rd st).1 ≠
        .error (.Device "This device already has an identity.")) := by
  refine ⟨?_, ?_, ?_, ?_⟩
  · intro env now ld dn st idn hid
    simp [join_device, hid]
  · intro env rd st idn hid
    simp [finish_join_device, hid]
  · intro env now ld dn st hid
    have hif : st.identity.isSome = false := by rw [hid]; rfl
    simp only [join_device, hif, Bool.false_eq_true, if_false]
    repeat' split
    all_goals intro h
    all_goals try exact Except.noConfusion h
    all_goals injection h with h1
    all_goals injection h1 with h2
    all_goals first
      | exact absurd h2 (by decide)
      | exact append_ne_of_take_ne _ _ (by decide) _ h2
  · intro env rd st hid
    have hif : st.identity.isSome = false := by rw [hid]; rfl
    simp only [finish_join_device, hif, Bool.false_eq_true, if_false]
    repeat' split
    all_goals intro h
    all_goals try exact Except.noConfusion h
    all_goals injection h with h1
    all_goals try exact CommandError.noConfusion h1
    all_goals injection h1 with h2
    all_goals first
      | exact absurd h2 (by decide)
      | exact append_ne_of_take_ne _ _ (by decide) _ h2

/-- C1 witness: concrete instances of all four conjuncts. -/
theorem single_identity_invariant_witness :
    (join_device envTriv 0 "qr" "" stWithId).1 =
      .error (.Device "This device already has an identity. Cannot join another device.") ∧
    (finish_join_device envTriv "" stWithId).1 =
      .error (.Device "This device already has an identity.") ∧
    (join_device envTriv 0 "qr" "" stFresh).1 ≠
      .error (.Device "This device already has an identity. Cannot join another device.") ∧
    (finish_join_device envTriv "" stFresh).1 ≠
      .error (.Device "This device already has an identity.") := by
  refine ⟨?_, ?_, ?_, ?_⟩
  · exact single_identity_invariant.1 envTriv 0 "qr" "" stWithId identityTriv rfl
  · exact single_identity_invariant.2.1 envTriv "" stWithId identityTriv rfl
  · exact single_identity_invariant.2.2.1 envTriv 0 "qr" "" stFresh rfl
  · exact single_identity_invariant.2.2.2 envTriv "" stFresh rfl

/-! ### C3: expiry enforcement -/

/-- C3: a QR whose expiry is in the past is rejected with the expiry-specific
error by every consuming step that reaches it — join_device, the
prepare_device_confirmation step, and process_scanned_qr — and the state is left
unchanged, so the expired QR is never acted on. -/
theorem expired_qr_rejected :
    (∀ (env : CoreEnv) (now : Nat) (ld dn : String) (st : AppState) (qr : DeviceLinkQR),
      st.identity = none →
      env.parseDeviceLinkQR ld = .ok qr →
      qr.is_expired now = true →
      join_device env now ld dn st =
        (.error (.Device "This device link has expired. Please generate a new one."), st)) ∧
    (∀ (env : CoreEnv) (now : Nat) (rd : String) (st : AppState) (idn : Identity)
      (qrd : String) (qr : DeviceLinkQR),
      st.identity = some idn →
      st.pending_device_link_qr = some qrd →
      env.parseDeviceLinkQR qrd = .ok qr →
      qr.is_expired now = true →
      prepare_device_confirmation env now rd st =
        (.error "Device link QR has expired. Generate a new one.", st)) ∧
    (∀ (env : CoreEnv) (now : Nat) (d : String) (st : AppState) (idn : Identity)
      (qr : ExchangeQR),
      st.has_identity = true →
      create_owned_identity env st = .ok idn →
      env.parseExchangeQR d = .ok qr →
      qr.is_expired now = true →
      process_scanned_qr env now d st =
        (.error "This QR code has expired. Please ask them to generate a new one.", st)) := by
  refine ⟨?_, ?_, ?_⟩
  · intro env now ld dn st qr hid hq hexp
    have hif : st.identity.isSome = false := by rw [hid]; rfl
    simp [join_device, hif, hq, hexp]
  · intro env now rd st idn qrd qr hid hqrd hq hexp
    simp [prepare_device_confirmation, hid, hqrd, hq, hexp]
  · intro env now d st idn qr hasid hci hq hexp
    simp [process_scanned_qr, hasid, hci, hq, hexp]

/-- C3 witness: with a QR that expired at time 100 and the clock at 200, all
three consuming steps reject with their expiry error. -/
theorem expired_qr_rejected_witness :
    join_device envTriv 200 "qr" "" stFresh =
      (.error (.Device "This device link has expired. Please generate a new one."), stFresh) ∧
    prepare_device_confirmation envTriv 200 "req" stPrepare =
      (.error "Device link QR has expired. Generate a new one.", stPrepare) ∧
    process_scanned_qr envTriv 200 "exqr" stBackup =
      (.error "This QR code has expired. Please ask them to generate a new one.", stBackup) := by
  refine ⟨?_, ?_, ?_⟩
  · exact expired_qr_rejected.1 envTriv 200 "qr" "" stFresh qrTriv rfl rfl rfl
  · exact expired_qr_rejected.2.1 envTriv 200 "req" stPrepare identityTriv "qr-data" qrTriv
      rfl rfl rfl rfl
  · exact expired_qr_rejected.2.2 envTriv 200 "exqr" stBackup identityTriv
      { payload := 0, expires_at := 100 } rfl rfl rfl rfl

/-! ### C4: pending-state prerequisites -/

/-- C4: every step that depends on a pending slot fails with its distinct
"no pending X" error when the slot is empty: confirmation retrieval and finish
need pending_device_join, prepare needs pending_device_link_qr, and
approve needs both pending_initiator and pending_link_request. -/
theorem no_pending_prerequisites :
    (∀ st : AppState, st.pending_device_join = none →
      (get_join_confirmation_code st).1 = .error "No pending device join") ∧
    (∀ (env : CoreEnv) (rd : String) (st : AppState),
      st.identity = none → st.pending_device_join = none →
      (finish_join_device env rd st).1 =
        .error (.Device "No pending device join. Call join_device first.")) ∧
    (∀ (env : CoreEnv) (now : Nat) (rd : String) (st : AppState) (idn : Identity),
      st.identity = some idn → st.pending_device_link_qr = none →
      (prepare_device_confirmation env now rd st).1 =
        .error "No pending device link. Generate a link QR first.") ∧
    (∀ (env : CoreEnv) (st : AppState), st.pending_initiator = none →
      (confirm_device_link_approved env st).1 =
        .error "No pending device link initiator. Call prepare_device_confirmation first.") ∧
    (∀ (env : CoreEnv) (st : AppState) (ini : DeviceLinkInitiatorRestored),
      st.pending_initiator = some ini → st.pending_link_request = none →
      (confirm_device_link_approved env st).1 = .error "No pending device link request.") := by
  refine ⟨?_, ?_, ?_, ?_, ?_⟩
  · intro st hpd
    simp [get_join_confirmation_code, hpd]
  · intro env rd st hid hpd
    have hif : st.identity.isSome = false := by rw [hid]; rfl
    simp [finish_join_device, hif, hpd]
  · intro env now rd st idn hid hpq
    simp [prepare_device_confirmation, hid, hpq]
  · intro env st hpi
    simp [confirm_device_link_approved, hpi]
  · intro env st ini hpi hpr
    simp [confirm_device_link_approved, hpi, hpr]

/-- C4 witness: concrete out-of-order calls hit each distinct no-pending error. -/
theorem no_pending_prerequisites_witness :
    (get_join_confirmation_code stFresh).1 = .error "No pending device join" ∧
    (finish_join_device envTriv "" stFresh).1 =
      .error (.Device "No pending device join. Call join_device first.") ∧
    (prepare_device_confirmation envTriv 0 "req" stWithId).1 =
      .error "No pending device link. Generate a link QR first." ∧
    (confirm_device_link_approved envTriv stFresh).1 =
      .error "No pending device link initiator. Call prepare_device_confirmation first." ∧
    (confirm_device_link_approved envTriv stInitOnly).1 =
      .error "No pending device link request." := by
  refine ⟨?_, ?_, ?_, ?_, ?_⟩
  · exact no_pending_prerequisites.1 stFresh rfl
  · exact no_pending_prerequisites.2.1 envTriv "" stFresh rfl rfl
  · exact no_pending_prerequisites.2.2.1 envTriv 0 "req" stWithId identityTriv rfl rfl
  · exact no_pending_prerequisites.2.2.2.1 envTriv stFresh rfl
  · exact no_pending_prerequisites.2.2.2.2 envTriv stInitOnly ⟨0⟩ rfl rfl

/-! ### C5: deny is total and idempotent -/

/-- C5: deny_device_link succeeds from every starting state, leaves all three
pending device-link slots empty, and is idempotent: a second deny returns the
same result and the same final state as the first. -/
theorem deny_device_link_total_idempotent (st : AppState) :
    (deny_device_link st).1 = .ok () ∧
    (deny_device_link st).2.pending_initiator = none ∧
    (deny_device_link st).2.pending_link_request = none ∧
    (deny_device_link st).2.pending_device_link_qr = none ∧
    deny_device_link (deny_device_link st).2 = deny_device_link st := by
  exact ⟨rfl, rfl, rfl, rfl, rfl⟩

/-! ### C6: finish_join_device and the pending_device_join slot -/

/-- C6 counterexample: in a state that already holds an Identity together with a
pending join (reachable by running join_device on a fresh state and then creating
an identity), finish_join_device returns with pending_device_join still occupied,
so the slot is not empty on every return of the call. -/
theorem finish_join_pending_counterexample :
    (finish_join_device envTriv "" stIdPending).2.pending_device_join ≠ none := by
  intro h
  have he : (finish_join_device envTriv "" stIdPending).2.pending_device_join
      = some pendingTriv := rfl
  rw [he] at h
  exact Option.noConfusion h

/-- C6 (amended): whenever finish_join_device runs in a state with no Identity —
the only states in which the call gets past its identity guard — the
pending_device_join slot is empty when the call returns, on success and on every
failure path alike; when an Identity already exists the call fails early with the
AlreadyLinked error and leaves the slot untouched. -/
theorem finish_join_clears_pending (env : CoreEnv) (rd : String) (st : AppState)
    (hid : st.identity = none) :
    (finish_join_device env rd st).2.pending_device_join = none := by
  have hif : st.identity.isSome = false := by rw [hid]; rfl
  simp only [finish_join_device, hif, Bool.false_eq_true, if_false]
  split
  · rename_i heq
    exact heq
  · repeat' split
    all_goals rfl

/-- C6 witness: a fresh no-identity state with a pending join has the slot
cleared by a (failing or succeeding) finish call. -/
theorem finish_join_clears_pending_witness :
    (finish_join_device envTriv "" stJoinPending).2.pending_device_join = none :=
  finish_join_clears_pending envTriv "" stJoinPending rfl

/-! ### C7: exchange idempotence on an existing contact -/

/-- C7: when the key agreement of a completing exchange yields a peer public key
whose hex contact id already exists in storage, complete_exchange returns Ok with
success = false, contact name "Unknown", that contact id and the
already-have-this-contact message, and the final state differs from the input
only in the consumed session: storage is untouched, so the existing contact is
neither duplicated nor overwritten. -/
theorem complete_exchange_already_exists (env : CoreEnv) (st : AppState)
    (session s2 : ExchangeSession) (pk : List Nat) (tag : Nat)
    (hs : st.exchange_session = some session)
    (hka : env.applyKeyAgreement session = .ok s2)
    (hst : s2.st = .awaitingCardExchange pk tag)
    (hex : (st.storage.load_contact (hexEncode pk)).isSome = true) :
    complete_exchange env st =
      (.ok { success := false, contact_name := "Unknown", contact_id := hexEncode pk,
             message := "You already have this contact." },
       { st with exchange_session := none }) := by
  simp [complete_exchange, hs, hka, hst, hex]

/-- C7 witness: a session whose key agreement lands on a public key already in
the contact table short-circuits without a storage write. -/
theorem complete_exchange_already_exists_witness :
    complete_exchange envTriv stExchange =
      (.ok { success := false, contact_name := "Unknown",
             contact_id := hexEncode (List.replicate 32 5),
             message := "You already have this contact." },
       { stExchange with exchange_session := none }) := by
  refine complete_exchange_already_exists envTriv stExchange sessionAwaiting
    sessionAwaiting (List.replicate 32 5) 0 rfl rfl rfl ?_
  decide

/-! ### C8: self-revocation blocked -/

/-- C8: whatever the registry and storage contain, calling revoke_device with the
hex id of the caller's own current device fails with the self-revocation error
and leaves the whole state, registry included, unchanged. -/
theorem revoke_self_blocked (env : CoreEnv) (st : AppState) (idn : Identity)
    (hid : st.identity = some idn) :
    revoke_device env (hexEncode idn.device_id) st =
      (.error (.Device
        "Cannot revoke the current device. Use a different device to revoke this one."), st) := by
  simp [revoke_device, hid]

/-- C8 witness: revoking one's own device id on a concrete identity fails with
the self-revocation error. -/
theorem revoke_self_blocked_witness :
    revoke_device envTriv (hexEncode identityTriv.device_id) stWithId =
      (.error (.Device
        "Cannot revoke the current device. Use a different device to revoke this one."),
       stWithId) :=
  revoke_self_blocked envTriv stWithId identityTriv rfl

/-! ### C9: join_device defaults and result shape (Scenario A) -/

/-- C9: in a fresh process with no identity, join_device on valid unexpired link
data with an empty device-name string succeeds; the pending join stores the
default name "Desktop Device"; the result carries base64 request bytes that are
non-empty whenever the encrypted request is, and a target_identity that is the
hex encoding of the QR's 32-byte identity public key, hence 64 characters long. -/
theorem join_device_scenario_a (env : CoreEnv) (now : Nat) (ld : String) (st : AppState)
    (qr : DeviceLinkQR) (r r2 : DeviceLinkResponder) (req : List Nat) (code : String)
    (hid : st.identity = none)
    (hq : env.parseDeviceLinkQR ld = .ok qr)
    (hexp : qr.is_expired now = false)
    (hkey : qr.identity_public_key.length = 32)
    (hr : env.mkResponder qr "Desktop Device" = .ok r)
    (hcr : env.createRequest r = .ok (req, r2))
    (hreq : req ≠ [])
    (hcc : env.confirmationCode r2 = .ok code) :
    (join_device env now ld "" st).1 =
      .ok { success := true, request_data := some (base64EncodeStr req),
            target_identity := some (hexEncode qr.identity_public_key),
            message := "Send this request to the existing device and get the response." } ∧
    base64EncodeStr req ≠ "" ∧
    (hexEncode qr.identity_public_key).length = 64 ∧
    (join_device env now ld "" st).2.pending_device_join =
      some { qr_data := ld, device_name := "Desktop Device",
             confirmation_code := code, fingerprint := env.responderFingerprint r2 } := by
  have hif : st.identity.isSome = false := by rw [hid]; rfl
  have hemp : ("" : String).isEmpty = true := rfl
  refine ⟨?_, ?_, ?_, ?_⟩
  · simp [join_device, hif, hq, hexp, hemp, hr, hcr, hcc]
  · exact base64EncodeStr_ne_empty req hreq
  · rw [hexEncode_length, hkey]
  · simp [join_device, hif, hq, hexp, hemp, hr, hcr, hcc]

/-- C9 witness: the scenario instantiated with a concrete fresh state, QR and
core-library behaviour. -/
theorem join_device_scenario_a_witness :
    (join_device envTriv 0 "qr" "" stFresh).1 =
      .ok { success := true, request_data := some (base64EncodeStr [1, 2, 3]),
            target_identity := some (hexEncode qrTriv.identity_public_key),
            message := "Send this request to the existing device and get the response." } ∧
    base64EncodeStr [1, 2, 3] ≠ "" ∧
    (hexEncode qrTriv.identity_public_key).length = 64 ∧
    (join_device envTriv 0 "qr" "" stFresh).2.pending_device_join =
      some { qr_data := "qr", device_name := "Desktop Device",
             confirmation_code := "123-456",
             fingerprint := envTriv.responderFingerprint ⟨0⟩ } :=
  join_device_scenario_a envTriv 0 "qr" stFresh qrTriv ⟨0⟩ ⟨0⟩ [1, 2, 3] "123-456"
    rfl rfl rfl rfl rfl rfl (by simp) rfl

/-! ### C10: relay_send_response consumes the token before validating -/

/-- C10: when a pending sender token is present, relay_send_response removes it
from state before validating the payload: a call with invalid base64 both fails
with the invalid-base64 error and consumes the token, and any immediately
following call fails with the no-pending-sender-token error. -/
theorem relay_send_response_consumes_token (env : CoreEnv) (st : AppState)
    (t rd : String)
    (ht : st.pending_sender_token = some t)
    (hbad : base64DecodeStr rd = none) :
    (relay_send_response env rd st).1 = .error "Invalid response data (not valid base64)" ∧
    (relay_send_response env rd st).2.pending_sender_token = none ∧
    ∀ rd2 : String, (relay_send_response env rd2 (relay_send_response env rd st).2).1 =
      .error "No pending sender token. Call relay_listen_for_request first." := by
  have h1 : relay_send_response env rd st =
      (.error "Invalid response data (not valid base64)",
       { st with pending_sender_token := none }) := by
    simp [relay_send_response, ht, hbad]
  refine ⟨by rw [h1], by rw [h1], ?_⟩
  intro rd2
  rw [h1]
  simp [relay_send_response]

/-- C10 witness: the string "!" is not valid base64; it consumes the token and
the follow-up call reports no pending token. -/
theorem relay_send_response_consumes_token_witness :
    (relay_send_response envTriv "!" stToken).1 =
      .error "Invalid response data (not valid base64)" ∧
    (relay_send_response envTriv "!" stToken).2.pending_sender_token = none ∧
    ∀ rd2 : String,
      (relay_send_response envTriv rd2 (relay_send_response envTriv "!" stToken).2).1 =
        .error "No pending sender token. Call relay_listen_for_request first." :=
  relay_send_response_consumes_token envTriv stToken "tok" "!" rfl rfl

/-- C2 witness: a concrete two-byte payload yields a frame sequence with the
chunk count of its chunk list. -/
theorem generate_multipart_qr_correct_witness :
    ∃ frames, generate_multipart_qr (fun s => .ok s) [7, 8] = .ok frames ∧
      frames.length = (multipartChunks [7, 8]).length := by
  obtain ⟨frames, h1, h2, _⟩ := generate_multipart_qr_correct (fun s => .ok s) [7, 8]
    (by decide) (fun s => ⟨s, rfl⟩)
  exact ⟨frames, h1, h2⟩
